import Mathlib

/-!
Shallow embedding of mb_23LC1024.py, a MicroPython driver for the
Microchip 23LC1024 SPI SRAM.

Modelling choices:
* Every externally observable action of the driver (chip-select pin
  configuration and level changes, SPI bus writes and reads, delays) is
  recorded as an `Event` in a trace, in program order.
* The SPI bus is modelled by a response function
  `respond : List Nat → List Nat`: the bytes `spi.read` returns after the
  driver has written a given byte sequence in the same chip-select window.
* Python integers are `Int` (the validation checks compare against negative
  bounds); after validation the address and data are non-negative, so the
  byte-level computations happen on `Int.toNat`.
* A Python `raise ValueError(msg)` is an `Except.error msg` result; it aborts
  the method before any bus activity, so the trace produced up to that point
  (the empty trace) is returned with the error.
* The driver object state is `DeviceState`: the only attribute the methods
  ever assign after construction is `self.value_read` (set by `read_byte`);
  the `spi` and `cs` handles are fixed at construction and are represented by
  the trace events themselves.  `read_byte` assigns `self.value_read` twice
  (first the raw bytes, then the converted int); the state records the final
  value of the attribute at method return.
-/

/-- One observable action of the driver on its pins and bus. -/
inductive Event where
  | csConfigOut : Event
  | csSet : Nat → Event
  | spiWrite : List Nat → Event
  | spiRead : Nat → Event
  | sleepUs : Nat → Event
  deriving DecidableEq, Repr

/-- Instruction set constant: read opcode (source line 48). -/
def _READ : Nat := 0x03

/-- Instruction set constant: write opcode (source line 49). -/
def _WRITE : Nat := 0x02

/-- Instruction set constant: enter dual I/O mode (source line 50), never issued. -/
def _EDIO : Nat := 0x3b

/-- Instruction set constant: enter quad I/O mode (source line 51), never issued. -/
def _EQIO : Nat := 0x38

/-- Instruction set constant: reset I/O mode (source line 52), never issued. -/
def _RSTIO : Nat := 0xff

/-- Instruction set constant: read mode register (source line 53), never issued. -/
def _RDMR : Nat := 0x05

/-- Instruction set constant: write mode register (source line 54). -/
def _WRMR : Nat := 0x01

/-- Mode selection constant: byte mode (source line 64). -/
def _MODE_BYTE : Nat := 0x00

/-- Mode selection constant: page mode (source line 65), never engaged. -/
def _MODE_PAGE : Nat := 0x40

/-- Mode selection constant: sequential mode (source line 66), never engaged. -/
def _MODE_SEQ : Nat := 0xc0

/-- Maximum address of the 23LC1024 (source line 70). -/
def _MAX_ADDRESS : Nat := 131071

/-- Mutable attributes of the driver object beyond the fixed spi/cs handles:
`value_read` is the attribute `read_byte` assigns (source line 139/143);
`none` models the attribute not existing yet (before the first read). -/
structure DeviceState where
  value_read : Option Nat
  deriving DecidableEq, Repr

/-- Low address byte: `address_byte[2] = address & 0x0000ff`
(source lines 110 and 130). -/
def address_byte_2 (address : Nat) : Nat := address &&& 0x0000ff

/-- Middle address byte: `address_byte[1] = (address & 0x00ff00) >> 8`
(source lines 111 and 131). -/
def address_byte_1 (address : Nat) : Nat := (address &&& 0x00ff00) >>> 8

/-- High address byte: `address_byte[0] = (address & 0xff0000) >> 16`
(source lines 112 and 132). -/
def address_byte_0 (address : Nat) : Nat := (address &&& 0xff0000) >>> 16

/-- The three-byte big-endian address list `[address_byte[0], address_byte[1],
address_byte[2]]` as transmitted by both `write_byte` and `read_byte`. -/
def address_bytes (address : Nat) : List Nat :=
  [address_byte_0 address, address_byte_1 address, address_byte_2 address]

/-- The 4-byte read header `[_READ, address_byte[0], address_byte[1],
address_byte[2]]` transmitted by `read_byte` (source line 137). -/
def read_header (address : Nat) : List Nat :=
  [ _READ, address_byte_0 address, address_byte_1 address, address_byte_2 address]

/-- `int.from_bytes(bs, "big")`: big-endian unsigned interpretation of a byte
string (source line 143). -/
def int_from_bytes_big (bs : List Nat) : Nat :=
  bs.foldl (fun acc b => acc * 256 + b) 0

/-- The constructor `mb_23LC1024.__init__` (source lines 77 to 94): configure
the /CS pin as output, pulse /CS high-low-high, then assert /CS, write the
mode-register transaction `[_WRMR, 0b00000000]`, deassert /CS, and sleep 50
microseconds.  The trace records these actions in program order. -/
def mb_init : List Event :=
  [Event.csConfigOut,
   Event.csSet 1, Event.csSet 0, Event.csSet 1,
   Event.csSet 0, Event.spiWrite [ _WRMR, 0b00000000], Event.csSet 1,
   Event.sleepUs 50]

/-- `mb_23LC1024.write_byte(address, data)` (source lines 97 to 121): validate
the address and data ranges (raising `ValueError` before any bus activity),
split the address into three bytes, assert /CS, write the 5-byte transaction,
deassert /CS.  Returns the device state, the event trace, and the result. -/
def write_byte (st : DeviceState) (address data : Int) :
    DeviceState × List Event × Except String Unit :=
  if address > 131071 ∨ address < 0 then
    (st, [], Except.error "Address is outside of device address range (0 to 131071)")
  else if data > 255 ∨ data < 0 then
    (st, [], Except.error "You can only pass an 8-bit data value (0-255) to this function")
  else
    let a := address.toNat
    (st,
     [Event.csSet 0,
      Event.spiWrite [ _WRITE, address_byte_0 a, address_byte_1 a, address_byte_2 a, data.toNat],
      Event.csSet 1],
     Except.ok ())

/-- `mb_23LC1024.read_byte(address)` (source lines 123 to 145): validate the
address range (raising `ValueError` before any bus activity), split the
address into three bytes, assert /CS, write the 4-byte read header, read one
byte from the bus (`respond` gives the bus's reply to the header written in
this chip-select window), deassert /CS, store the big-endian conversion in
`self.value_read` and return it. -/
def read_byte (st : DeviceState) (address : Int) (respond : List Nat → List Nat) :
    DeviceState × List Event × Except String Nat :=
  if address > 131071 ∨ address < 0 then
    (st, [], Except.error "Address is outside of device address range (0 to 131071 (0x1ffff))")
  else
    let a := address.toNat
    let value_read := int_from_bytes_big (respond (read_header a))
    ({ value_read := some value_read },
     [Event.csSet 0,
      Event.spiWrite (read_header a),
      Event.spiRead 1,
      Event.csSet 1],
     Except.ok value_read)

/-- Decode a 3-byte big-endian address field. -/
def decode_addr (hi mid lo : Nat) : Nat := hi * 65536 + mid * 256 + lo

/-- Effect of one transmitted byte sequence on the SRAM array, modelling the
chip as a byte-addressed store: a 5-byte write transaction updates the decoded
address with the data byte; every other sequence leaves the store unchanged. -/
def mem_write_tx (m : Nat → Nat) (bytes : List Nat) : Nat → Nat :=
  match bytes with
  | [op, hi, mid, lo, v] =>
      if op = _WRITE then fun x => if x = decode_addr hi mid lo then v else m x
      else m
  | _ => m

/-- The SRAM array after the chip has seen every transaction of a trace. -/
def mem_after (m : Nat → Nat) (tr : List Event) : Nat → Nat :=
  tr.foldl
    (fun mm e =>
      match e with
      | Event.spiWrite bs => mem_write_tx mm bs
      | _ => mm)
    m

/-- The chip's reply to a transmitted header, modelling the chip as a
byte-addressed store: a 4-byte read header is answered with the byte stored at
the decoded address; anything else gets no reply bytes. -/
def sram_respond (m : Nat → Nat) (header : List Nat) : List Nat :=
  match header with
  | [op, hi, mid, lo] => if op = _READ then [m (decode_addr hi mid lo)] else []
  | _ => []

/-- The byte sequences of the bus transactions in a trace, in order. -/
def tx_bytes (tr : List Event) : List (List Nat) :=
  tr.foldr
    (fun e acc =>
      match e with
      | Event.spiWrite bs => bs :: acc
      | _ => acc)
    []

/-- How many bus read requests a trace contains. -/
def spi_read_count (tr : List Event) : Nat :=
  (tr.filter fun e =>
    match e with
    | Event.spiRead _ => true
    | _ => false).length

/-- Whether an event is a bus transaction (a write of a byte sequence). -/
def is_tx : Event → Bool
  | Event.spiWrite _ => true
  | _ => false

/-- Shift-right distributes over bitwise and. -/
theorem and_shiftRight_distrib (a b k : Nat) :
    (a &&& b) >>> k = (a >>> k) &&& (b >>> k) := by
  apply Nat.eq_of_testBit_eq
  intro i
  simp [Nat.testBit_and, Nat.testBit_shiftRight]

/-- Masking with 0xff is reduction mod 256. -/
theorem and_0xff_eq_mod (a : Nat) : a &&& 0xff = a % 256 := by
  have h := Nat.and_pow_two_sub_one_eq_mod a 8
  simpa using h

/-- The low address byte is the low 8 bits of the address. -/
theorem address_byte_2_eq (a : Nat) : address_byte_2 a = a % 256 := by
  unfold address_byte_2
  exact and_0xff_eq_mod a

/-- The middle address byte is bits 15 to 8 of the address. -/
theorem address_byte_1_eq (a : Nat) : address_byte_1 a = a / 256 % 256 := by
  unfold address_byte_1
  rw [and_shiftRight_distrib]
  have h8 : (0x00ff00 : Nat) >>> 8 = 0xff := by decide
  rw [h8, and_0xff_eq_mod, Nat.shiftRight_eq_div_pow]

/-- The high address byte is bits 23 to 16 of the address. -/
theorem address_byte_0_eq (a : Nat) : address_byte_0 a = a / 65536 % 256 := by
  unfold address_byte_0
  rw [and_shiftRight_distrib]
  have h16 : (0xff0000 : Nat) >>> 16 = 0xff := by decide
  rw [h16, and_0xff_eq_mod, Nat.shiftRight_eq_div_pow]

/-- For in-range addresses the three bytes are a faithful big-endian
encoding: they decode back to the address, and the top byte is at most 1. -/
theorem address_bytes_decode (a : Nat) (ha : a ≤ 131071) :
    address_byte_0 a * 65536 + address_byte_1 a * 256 + address_byte_2 a = a ∧
    address_byte_0 a ≤ 1 := by
  rw [address_byte_0_eq, address_byte_1_eq, address_byte_2_eq]
  omega

example : address_bytes 500 = [0x00, 0x01, 0xf4] := by decide
example : address_bytes 131071 = [0x01, 0xff, 0xff] := by decide

/-- On valid inputs the write trace is exactly assert, one 5-byte
transaction, deassert. -/
theorem write_byte_trace_ok (st : DeviceState) (a v : Int)
    (ha0 : 0 ≤ a) (ha1 : a ≤ 131071) (hv0 : 0 ≤ v) (hv1 : v ≤ 255) :
    write_byte st a v =
      (st,
       [Event.csSet 0,
        Event.spiWrite [ _WRITE, address_byte_0 a.toNat, address_byte_1 a.toNat,
          address_byte_2 a.toNat, v.toNat],
        Event.csSet 1],
       Except.ok ()) := by
  unfold write_byte
  rw [if_neg (by omega), if_neg (by omega)]

/-- On a valid address the read trace is exactly assert, the 4-byte header,
one 1-byte bus read, deassert; the returned value is the big-endian
conversion of the bus reply, and the device retains it in `value_read`. -/
theorem read_byte_ok (st : DeviceState) (a : Int) (respond : List Nat → List Nat)
    (ha0 : 0 ≤ a) (ha1 : a ≤ 131071) :
    read_byte st a respond =
      ({ value_read := some (int_from_bytes_big (respond (read_header a.toNat))) },
       [Event.csSet 0,
        Event.spiWrite (read_header a.toNat),
        Event.spiRead 1,
        Event.csSet 1],
       Except.ok (int_from_bytes_big (respond (read_header a.toNat)))) := by
  unfold read_byte
  rw [if_neg (by omega)]

/-- C4: for every address in [0, 131071] the encoding used by both
`write_byte` and `read_byte` is exactly 3 bytes in big-endian order whose
concatenation decodes back to the address (hi * 65536 + mid * 256 + lo = a),
the top byte is at most 1, and concretely 0 encodes to [0x00, 0x00, 0x00]
and 131071 to [0x01, 0xff, 0xff]. -/
theorem C4_address_encoding (a : Nat) (ha : a ≤ 131071) :
    (address_bytes a).length = 3 ∧
    address_byte_0 a * 65536 + address_byte_1 a * 256 + address_byte_2 a = a ∧
    address_byte_0 a ≤ 1 ∧
    address_bytes 0 = [0x00, 0x00, 0x00] ∧
    address_bytes 131071 = [0x01, 0xff, 0xff] :=
  ⟨rfl, (address_bytes_decode a ha).1, (address_bytes_decode a ha).2,
   by decide, by decide⟩

/-- Witness for C4 at the concrete address 500. -/
theorem C4_address_encoding_witness :
    (500 : Nat) ≤ 131071 ∧
    ((address_bytes 500).length = 3 ∧
     address_byte_0 500 * 65536 + address_byte_1 500 * 256 + address_byte_2 500 = 500 ∧
     address_byte_0 500 ≤ 1 ∧
     address_bytes 0 = [0x00, 0x00, 0x00] ∧
     address_bytes 131071 = [0x01, 0xff, 0xff]) :=
  ⟨by decide, C4_address_encoding 500 (by decide)⟩

/-- C2: for every valid address and value, `write_byte` performs exactly one
chip-select assert/deassert cycle enclosing exactly one bus write of the
5-byte sequence [0x02, addr_hi, addr_mid, addr_lo, value], the address bytes
being the big-endian encoding of the address, with no other bus activity. -/
theorem C2_write_transaction (st : DeviceState) (a v : Int)
    (ha0 : 0 ≤ a) (ha1 : a ≤ 131071) (hv0 : 0 ≤ v) (hv1 : v ≤ 255) :
    (write_byte st a v).2.1 =
      [Event.csSet 0,
       Event.spiWrite [0x02, address_byte_0 a.toNat, address_byte_1 a.toNat,
         address_byte_2 a.toNat, v.toNat],
       Event.csSet 1] ∧
    decode_addr (address_byte_0 a.toNat) (address_byte_1 a.toNat)
      (address_byte_2 a.toNat) = a.toNat := by
  rw [write_byte_trace_ok st a v ha0 ha1 hv0 hv1]
  refine ⟨rfl, ?_⟩
  unfold decode_addr
  exact (address_bytes_decode a.toNat (by omega)).1

/-- Witness for C2 at address 131071, value 38. -/
theorem C2_write_transaction_witness :
    (0 : Int) ≤ 131071 ∧ (131071 : Int) ≤ 131071 ∧ (0 : Int) ≤ 38 ∧ (38 : Int) ≤ 255 ∧
    ((write_byte ⟨none⟩ 131071 38).2.1 =
      [Event.csSet 0,
       Event.spiWrite [0x02, address_byte_0 (131071 : Int).toNat,
         address_byte_1 (131071 : Int).toNat, address_byte_2 (131071 : Int).toNat,
         (38 : Int).toNat],
       Event.csSet 1] ∧
     decode_addr (address_byte_0 (131071 : Int).toNat)
       (address_byte_1 (131071 : Int).toNat)
       (address_byte_2 (131071 : Int).toNat) = (131071 : Int).toNat) :=
  ⟨by decide, by decide, by decide, by decide,
   C2_write_transaction ⟨none⟩ 131071 38 (by decide) (by decide) (by decide) (by decide)⟩

/-- C3: for every valid address, `read_byte` asserts chip-select, writes the
4-byte header [0x03, addr_hi, addr_mid, addr_lo] (big-endian encoding of the
address), requests exactly one byte from the bus while chip-select is still
asserted, deasserts chip-select, and returns the received byte as an unsigned
integer; in particular the header for address 500 is [0x03, 0x00, 0x01, 0xf4]. -/
theorem C3_read_transaction (st : DeviceState) (a : Int)
    (respond : List Nat → List Nat)
    (ha0 : 0 ≤ a) (ha1 : a ≤ 131071) :
    (read_byte st a respond).2.1 =
      [Event.csSet 0,
       Event.spiWrite [0x03, address_byte_0 a.toNat, address_byte_1 a.toNat,
         address_byte_2 a.toNat],
       Event.spiRead 1,
       Event.csSet 1] ∧
    decode_addr (address_byte_0 a.toNat) (address_byte_1 a.toNat)
      (address_byte_2 a.toNat) = a.toNat ∧
    (∀ b : Nat, respond (read_header a.toNat) = [b] →
      (read_byte st a respond).2.2 = Except.ok b) ∧
    read_header 500 = [0x03, 0x00, 0x01, 0xf4] := by
  rw [read_byte_ok st a respond ha0 ha1]
  refine ⟨rfl, ?_, ?_, by decide⟩
  · unfold decode_addr
    exact (address_bytes_decode a.toNat (by omega)).1
  · intro b hb
    rw [hb]
    simp [int_from_bytes_big]

/-- Witness for C3 at address 500 with a bus that replies with the byte 7. -/
theorem C3_read_transaction_witness :
    (0 : Int) ≤ 500 ∧ (500 : Int) ≤ 131071 ∧
    ((read_byte ⟨none⟩ 500 (fun _ => [7])).2.1 =
      [Event.csSet 0,
       Event.spiWrite [0x03, address_byte_0 (500 : Int).toNat,
         address_byte_1 (500 : Int).toNat, address_byte_2 (500 : Int).toNat],
       Event.spiRead 1,
       Event.csSet 1] ∧
     decode_addr (address_byte_0 (500 : Int).toNat)
       (address_byte_1 (500 : Int).toNat) (address_byte_2 (500 : Int).toNat) =
       (500 : Int).toNat ∧
     (∀ b : Nat, (fun _ => [7]) (read_header (500 : Int).toNat) = [b] →
       (read_byte ⟨none⟩ 500 (fun _ => [7])).2.2 = Except.ok b) ∧
     read_header 500 = [0x03, 0x00, 0x01, 0xf4]) :=
  ⟨by decide, by decide,
   C3_read_transaction ⟨none⟩ 500 (fun _ => [7]) (by decide) (by decide)⟩

/-- C1: for every address in [0, 131071] and value in [0, 255], writing the
byte and then reading the same address back (the device modelled as a
byte-addressed store updated by the write transaction and queried by the
read transaction, with no intervening write) returns the value: the write
transaction stores the value at exactly the written address, leaves every
other cell unchanged, and the subsequent read returns it. -/
theorem C1_write_read_roundtrip (m : Nat → Nat) (st st2 : DeviceState) (a v : Int)
    (ha0 : 0 ≤ a) (ha1 : a ≤ 131071) (hv0 : 0 ≤ v) (hv1 : v ≤ 255) :
    mem_after m (write_byte st a v).2.1 a.toNat = v.toNat ∧
    (∀ x, x ≠ a.toNat → mem_after m (write_byte st a v).2.1 x = m x) ∧
    (read_byte st2 a (sram_respond (mem_after m (write_byte st a v).2.1))).2.2 =
      Except.ok v.toNat := by
  have hdec := (address_bytes_decode a.toNat (by omega)).1
  rw [write_byte_trace_ok st a v ha0 ha1 hv0 hv1,
    read_byte_ok st2 a _ ha0 ha1]
  simp only [mem_after, List.foldl, mem_write_tx, decode_addr, hdec, if_pos rfl,
    read_header, sram_respond, int_from_bytes_big]
  refine ⟨by simp, fun x hx => by simp [hx], by simp⟩

/-- Witness for C1: write 38 to address 131071 of an all-zero store, then
read it back. -/
theorem C1_write_read_roundtrip_witness :
    (0 : Int) ≤ 131071 ∧ (131071 : Int) ≤ 131071 ∧ (0 : Int) ≤ 38 ∧ (38 : Int) ≤ 255 ∧
    (mem_after (fun _ => 0) (write_byte ⟨none⟩ 131071 38).2.1 (131071 : Int).toNat =
       (38 : Int).toNat ∧
     (∀ x, x ≠ (131071 : Int).toNat →
       mem_after (fun _ => 0) (write_byte ⟨none⟩ 131071 38).2.1 x = (fun _ => 0) x) ∧
     (read_byte ⟨none⟩ 131071
        (sram_respond (mem_after (fun _ => 0) (write_byte ⟨none⟩ 131071 38).2.1))).2.2 =
       Except.ok (38 : Int).toNat) :=
  ⟨by decide, by decide, by decide, by decide,
   C1_write_read_roundtrip (fun _ => 0) ⟨none⟩ ⟨none⟩ 131071 38
     (by decide) (by decide) (by decide) (by decide)⟩

/-- C5: out-of-range addresses make both operations fail with the range
validation error, and out-of-range data makes write_byte fail with the data
validation error; in every failure case the device state is unchanged and the
trace is empty, so no bus transaction is issued and chip-select is never
toggled. -/
theorem C5_validation_errors (st : DeviceState) (a v : Int)
    (respond : List Nat → List Nat) :
    ((a > 131071 ∨ a < 0) →
      write_byte st a v =
        (st, [], Except.error "Address is outside of device address range (0 to 131071)") ∧
      read_byte st a respond =
        (st, [], Except.error "Address is outside of device address range (0 to 131071 (0x1ffff))")) ∧
    (0 ≤ a → a ≤ 131071 → (v > 255 ∨ v < 0) →
      write_byte st a v =
        (st, [], Except.error "You can only pass an 8-bit data value (0-255) to this function")) := by
  constructor
  · intro h
    constructor
    · unfold write_byte
      rw [if_pos h]
    · unfold read_byte
      rw [if_pos h]
  · intro h1 h2 h3
    unfold write_byte
    rw [if_neg (by omega), if_pos h3]

/-- Witness for C5: address 131072 rejected by both operations, value 256
rejected by write_byte at the valid address 5. -/
theorem C5_validation_errors_witness :
    (write_byte ⟨none⟩ 131072 10 =
      (⟨none⟩, [], Except.error "Address is outside of device address range (0 to 131071)") ∧
     read_byte ⟨none⟩ 131072 (fun _ => []) =
      (⟨none⟩, [], Except.error "Address is outside of device address range (0 to 131071 (0x1ffff))")) ∧
    write_byte ⟨none⟩ 5 256 =
      (⟨none⟩, [], Except.error "You can only pass an 8-bit data value (0-255) to this function") :=
  ⟨(C5_validation_errors ⟨none⟩ 131072 10 (fun _ => [])).1 (Or.inl (by decide)),
   (C5_validation_errors ⟨none⟩ 5 256 (fun _ => [])).2 (by decide) (by decide)
     (Or.inl (by decide))⟩

/-- C6: construction configures the chip-select pin as output, then pulses
chip-select high-low-high with no bus transaction before or during the pulse,
then issues exactly one bus transaction, the 2-byte sequence
[0x01, 0x00] (write-mode-register opcode, byte-mode byte with the top two
bits 00 and all other bits zero) bracketed by chip-select low, then sleeps at
least 50 microseconds before returning, all before any read or write can
occur. -/
theorem C6_init_sequence :
    tx_bytes mb_init = [[ _WRMR, _MODE_BYTE]] ∧
    _WRMR = 0x01 ∧
    _MODE_BYTE = 0x00 ∧
    mb_init.takeWhile (fun e => ! is_tx e) =
      [Event.csConfigOut, Event.csSet 1, Event.csSet 0, Event.csSet 1,
       Event.csSet 0] ∧
    mb_init.dropWhile (fun e => ! is_tx e) =
      [Event.spiWrite [ _WRMR, _MODE_BYTE], Event.csSet 1, Event.sleepUs 50] ∧
    spi_read_count mb_init = 0 ∧
    50 ≥ 50 := by decide

/-- Every write trace is either empty (validation failure) or the single
chip-select cycle around one 5-byte write transaction. -/
theorem write_byte_trace_cases (st : DeviceState) (a v : Int) :
    (write_byte st a v).2.1 = [] ∨
    ∃ b0 b1 b2 d, (write_byte st a v).2.1 =
      [Event.csSet 0, Event.spiWrite [ _WRITE, b0, b1, b2, d], Event.csSet 1] := by
  unfold write_byte
  split
  · exact Or.inl rfl
  · split
    · exact Or.inl rfl
    · exact Or.inr ⟨_, _, _, _, rfl⟩

/-- Every read trace is either empty (validation failure) or the single
chip-select cycle around one 4-byte header write and one 1-byte bus read. -/
theorem read_byte_trace_cases (st : DeviceState) (a : Int)
    (respond : List Nat → List Nat) :
    (read_byte st a respond).2.1 = [] ∨
    ∃ b0 b1 b2, (read_byte st a respond).2.1 =
      [Event.csSet 0, Event.spiWrite [ _READ, b0, b1, b2], Event.spiRead 1,
       Event.csSet 1] := by
  unfold read_byte
  split
  · exact Or.inl rfl
  · exact Or.inr ⟨_, _, _, rfl⟩

/-- C7 as stated is false on the code: `read_byte` assigns the value it read
to the device attribute `value_read` (source lines 139 and 143), so a read
call does not leave all fields of the device unchanged.  Concretely, reading
address 0 from a fresh device whose bus replies with the byte 7 changes the
state. -/
theorem C7_counterexample :
    (read_byte ⟨none⟩ 0 (fun _ => [7])).1 ≠ (⟨none⟩ : DeviceState) := by
  decide

/-- C7 amended: `write_byte` leaves the device state unchanged, the bus
traffic and result of both operations never depend on the stored state (so
each transaction is independent of previous ones), and `read_byte` leaves
the state unchanged on a validation error but retains the value it read in
the `value_read` attribute on success. -/
theorem C7_state_footprint (st st2 : DeviceState) (a v : Int)
    (respond : List Nat → List Nat) :
    (write_byte st a v).1 = st ∧
    (write_byte st a v).2 = (write_byte st2 a v).2 ∧
    (read_byte st a respond).2 = (read_byte st2 a respond).2 ∧
    ((a > 131071 ∨ a < 0) → (read_byte st a respond).1 = st) ∧
    (0 ≤ a → a ≤ 131071 →
      (read_byte st a respond).1 =
        { value_read := some (int_from_bytes_big (respond (read_header a.toNat))) }) := by
  refine ⟨?_, ?_, ?_, ?_, ?_⟩
  · unfold write_byte
    split
    · rfl
    · split
      · rfl
      · rfl
  · unfold write_byte
    split
    · rfl
    · split
      · rfl
      · rfl
  · unfold read_byte
    split
    · rfl
    · rfl
  · intro h
    unfold read_byte
    rw [if_pos h]
  · intro h1 h2
    unfold read_byte
    rw [if_neg (by omega)]

/-- Witness for C7 amended: concrete calls at address 0 (success, the state
becomes value_read = 7) and address 131072 (validation error, state kept). -/
theorem C7_state_footprint_witness :
    (write_byte ⟨none⟩ 0 5).1 = (⟨none⟩ : DeviceState) ∧
    (read_byte ⟨none⟩ 0 (fun _ => [7])).1 = (⟨some 7⟩ : DeviceState) ∧
    (read_byte ⟨none⟩ 131072 (fun _ => [7])).1 = (⟨none⟩ : DeviceState) :=
  ⟨(C7_state_footprint ⟨none⟩ ⟨none⟩ 0 5 (fun _ => [7])).1,
   ((C7_state_footprint ⟨none⟩ ⟨none⟩ 0 5 (fun _ => [7])).2.2.2.2 (by decide)
       (by decide)).trans (by decide),
   (C7_state_footprint ⟨none⟩ ⟨none⟩ 131072 5 (fun _ => [7])).2.2.2.1
     (Or.inl (by decide))⟩

/-- C8: in every possible execution (construction followed by any write_byte
or read_byte call with any arguments, state, and bus responses) the first
byte of every transaction issued on the bus is 0x01 (write-mode-register),
0x02 (write), or 0x03 (read); the opcodes _EDIO (0x3b), _EQIO (0x38),
_RSTIO (0xff), and _RDMR (0x05) are never transmitted. -/
theorem C8_opcodes_used (st : DeviceState) (a v : Int)
    (respond : List Nat → List Nat) :
    ∀ bs ∈ tx_bytes mb_init ++ tx_bytes (write_byte st a v).2.1 ++
        tx_bytes (read_byte st a respond).2.1,
      (bs.headD 0 = 0x01 ∨ bs.headD 0 = 0x02 ∨ bs.headD 0 = 0x03) ∧
      bs.headD 0 ≠ _EDIO ∧ bs.headD 0 ≠ _EQIO ∧ bs.headD 0 ≠ _RSTIO ∧
      bs.headD 0 ≠ _RDMR := by
  intro bs hbs
  simp only [List.mem_append] at hbs
  rcases hbs with (hbs | hbs) | hbs
  · have h0 : tx_bytes mb_init = [[ _WRMR, 0b00000000]] := rfl
    rw [h0] at hbs
    simp only [List.mem_singleton] at hbs
    subst hbs
    decide
  · rcases write_byte_trace_cases st a v with h | ⟨b0, b1, b2, d, h⟩
    · rw [h] at hbs
      simp [tx_bytes] at hbs
    · rw [h] at hbs
      simp only [tx_bytes, List.foldr, List.mem_singleton] at hbs
      subst hbs
      exact ⟨Or.inr (Or.inl rfl), (by decide : _WRITE ≠ _EDIO),
        (by decide : _WRITE ≠ _EQIO), (by decide : _WRITE ≠ _RSTIO),
        (by decide : _WRITE ≠ _RDMR)⟩
  · rcases read_byte_trace_cases st a respond with h | ⟨b0, b1, b2, h⟩
    · rw [h] at hbs
      simp [tx_bytes] at hbs
    · rw [h] at hbs
      simp only [tx_bytes, List.foldr, List.mem_singleton] at hbs
      subst hbs
      exact ⟨Or.inr (Or.inr rfl), (by decide : _READ ≠ _EDIO),
        (by decide : _READ ≠ _EQIO), (by decide : _READ ≠ _RSTIO),
        (by decide : _READ ≠ _RDMR)⟩

/-- Witness for C8: the write transaction issued by write_byte(5, 9) is in
the combined transaction list and its opcode is 0x02, none of the unused
opcodes. -/
theorem C8_opcodes_used_witness :
    (([0x02, 0x00, 0x00, 0x05, 0x09] : List Nat).headD 0 = 0x01 ∨
     ([0x02, 0x00, 0x00, 0x05, 0x09] : List Nat).headD 0 = 0x02 ∨
     ([0x02, 0x00, 0x00, 0x05, 0x09] : List Nat).headD 0 = 0x03) ∧
    ([0x02, 0x00, 0x00, 0x05, 0x09] : List Nat).headD 0 ≠ _EDIO ∧
    ([0x02, 0x00, 0x00, 0x05, 0x09] : List Nat).headD 0 ≠ _EQIO ∧
    ([0x02, 0x00, 0x00, 0x05, 0x09] : List Nat).headD 0 ≠ _RSTIO ∧
    ([0x02, 0x00, 0x00, 0x05, 0x09] : List Nat).headD 0 ≠ _RDMR :=
  C8_opcodes_used ⟨none⟩ 5 9 (fun _ => [7])
    [0x02, 0x00, 0x00, 0x05, 0x09] (by decide)

/-- C9: operations are deterministic and single-attempt: the trace and result
of write_byte and read_byte depend only on the arguments and the bus
responses (not on the device state, so equal inputs give identical
chip-select toggles, byte sequences, and results), and each call issues at
most one bus transaction and at most one bus read request with no retry;
construction issues exactly one transaction and no read. -/
theorem C9_deterministic_single_attempt (st1 st2 : DeviceState) (a v : Int)
    (respond : List Nat → List Nat) :
    (write_byte st1 a v).2 = (write_byte st2 a v).2 ∧
    (read_byte st1 a respond).2 = (read_byte st2 a respond).2 ∧
    (tx_bytes (write_byte st1 a v).2.1).length ≤ 1 ∧
    spi_read_count (write_byte st1 a v).2.1 = 0 ∧
    (tx_bytes (read_byte st1 a respond).2.1).length ≤ 1 ∧
    spi_read_count (read_byte st1 a respond).2.1 ≤ 1 ∧
    (tx_bytes mb_init).length = 1 ∧
    spi_read_count mb_init = 0 := by
  refine ⟨?_, ?_, ?_, ?_, ?_, ?_, by decide, by decide⟩
  · unfold write_byte
    split
    · rfl
    · split
      · rfl
      · rfl
  · unfold read_byte
    split
    · rfl
    · rfl
  · rcases write_byte_trace_cases st1 a v with h | ⟨b0, b1, b2, d, h⟩ <;>
      simp [h, tx_bytes]
  · rcases write_byte_trace_cases st1 a v with h | ⟨b0, b1, b2, d, h⟩ <;>
      simp [h, spi_read_count]
  · rcases read_byte_trace_cases st1 a respond with h | ⟨b0, b1, b2, h⟩ <;>
      simp [h, tx_bytes]
  · rcases read_byte_trace_cases st1 a respond with h | ⟨b0, b1, b2, h⟩ <;>
      simp [h, spi_read_count]

/-- C10: on a valid address, whenever the bus supplies exactly one response
byte, read_byte returns exactly that byte, an integer in [0, 255]. -/
theorem C10_read_returns_byte (st : DeviceState) (a : Int)
    (respond : List Nat → List Nat) (b : Nat)
    (ha0 : 0 ≤ a) (ha1 : a ≤ 131071)
    (hb : respond (read_header a.toNat) = [b]) (hbyte : b ≤ 255) :
    (read_byte st a respond).2.2 = Except.ok b ∧ b ≤ 255 := by
  rw [read_byte_ok st a respond ha0 ha1, hb]
  exact ⟨by simp [int_from_bytes_big], hbyte⟩

/-- Witness for C10 at address 0 with a bus reply of the single byte 200. -/
theorem C10_read_returns_byte_witness :
    (0 : Int) ≤ 0 ∧ (0 : Int) ≤ 131071 ∧
    (fun _ => [200] : List Nat → List Nat) (read_header (0 : Int).toNat) = [200] ∧
    (200 : Nat) ≤ 255 ∧
    ((read_byte ⟨none⟩ 0 (fun _ => [200])).2.2 = Except.ok 200 ∧ (200 : Nat) ≤ 255) :=
  ⟨by decide, by decide, by decide, by decide,
   C10_read_returns_byte ⟨none⟩ 0 (fun _ => [200]) 200
     (by decide) (by decide) (by decide) (by decide)⟩
